import Mathlib

/-!
Shallow embedding of the ESP8266 air-quality firmware
(src/utils/sketch_esp8826.ino): sensor channels, record assembly,
broker-session will/birth handling, and the 10-second publish scheduler.
Hardware/driver replies (GPS decoder state, MH-Z19B value, SDS011 read
results, DS18B20 samples) are inputs to the embedded functions; everything
after the driver boundary is translated from the sketch.
-/

set_option maxRecDepth 4000

/-- Configuration constant, sketch line 63. -/
def MQTT_CLIENT : String := "esp8266-airclient"

/-- Configuration constant, sketch line 65. -/
def MQTT_TOPIC_UP : String := "device/messages"

/-- Configuration constant, sketch line 66. -/
def MQTT_TOPIC_STATUS : String := "device/status"

/-- Value of one IEEE-754 reading as far as the sketch inspects it:
either a finite number (modelled exactly as a rational) or one of the
non-finite classes that `isfinite` rejects. -/
inductive FloatVal where
  | fin : ℚ → FloatVal
  | nan : FloatVal
  | posInf : FloatVal
  | negInf : FloatVal
deriving DecidableEq

/-- C `isfinite` on a `FloatVal`. -/
def FloatVal.isFinite : FloatVal → Bool
  | .fin _ => true
  | _ => false

/-- State of the TinyGPSPlus decoder as read by `readGPS`
(`gps.location.isValid()`, `gps.location.age()`, `lat()`, `lng()`). -/
structure GpsState where
  isValid : Bool
  age : Nat
  lat : ℚ
  lng : ℚ

/-- `readGPS` (sketch lines 178-185): accepts the decoder fix only when it
is valid and younger than 3000 ms; the `lat`/`lon` arguments model the
caller's reference-passed variables, left untouched on the `false` path. -/
def readGPS (g : GpsState) (lat lon : ℚ) : Bool × ℚ × ℚ :=
  if g.isValid = true ∧ g.age < 3000 then (true, g.lat, g.lng) else (false, lat, lon)

/-- `readCO2` (sketch lines 188-192): `return (co2 > 0 && co2 < 10000) ? co2 : -1;`
where `co2` is the raw `mhz.getCO2()` reply. -/
def readCO2 (co2 : Int) : Int :=
  if 0 < co2 ∧ co2 < 10000 then co2 else -1

/-- One `sds.readPm()` reply: its `isOk()` flag and its `pm25` field. -/
structure PmResult where
  ok : Bool
  pm25 : FloatVal
deriving DecidableEq

/-- Side effects `readPM25` performs, in order. -/
inductive PmAction where
  | readAttempt
  | delayMs : Nat → PmAction
  | wakeup
  | setActiveReporting
  | setContinuousWorking
deriving DecidableEq

/-- The retry loop of `readPM25` (sketch lines 198-202):
`for (int i = 0; i < 4 && !isfinite(pm25); ++i) { auto pm = sds.readPm();
if (pm.isOk()) pm25 = pm.pm25; delay(200); }`.  The list carries the
replies the device would give to successive `readPm()` calls; the loop
consumes one per executed iteration. -/
def pmLoop : List PmResult → FloatVal → List PmAction × FloatVal
  | [], cur => ([], cur)
  | r :: rest, cur =>
    if cur.isFinite then ([], cur)
    else
      let cur2 := if r.ok then r.pm25 else cur
      let next := pmLoop rest cur2
      (PmAction.readAttempt :: PmAction.delayMs 200 :: next.1, next.2)

/-- `readPM25` (sketch lines 195-210): up to 4 loop reads starting from
`NAN`; if still non-finite, one recovery sequence (`wakeup`, `delay(800)`,
`setActiveReportingMode`, `setContinuousWorkingPeriod`) and one more read;
finally `return isfinite(pm25) ? pm25 : -1.0f;`.  Returns the action trace
and the returned value. -/
def readPM25 (reads : List PmResult) (recovery : PmResult) : List PmAction × FloatVal :=
  let main := pmLoop reads FloatVal.nan
  if main.2.isFinite then (main.1, main.2)
  else
    let v := if recovery.ok then recovery.pm25 else main.2
    (main.1 ++ [PmAction.wakeup, PmAction.delayMs 800, PmAction.setActiveReporting,
                PmAction.setContinuousWorking, PmAction.readAttempt],
     if v.isFinite then v else FloatVal.fin (-1))

/-- The trace left by `k` executed iterations of the `readPM25` retry loop:
one read attempt and one 200 ms delay per iteration. -/
def attemptTrace : Nat → List PmAction
  | 0 => []
  | k + 1 => PmAction.readAttempt :: PmAction.delayMs 200 :: attemptTrace k

/-- `readTemperatureC` (sketch lines 213-224): three conversion+read
cycles (the list carries the three `dallas.getTempCByIndex(0)` samples),
`if (t > -55 && t < 125) { acc += t; ok++; }`, then
`if (ok == 0) return -127.0f; return acc / ok;`. -/
def readTemperatureC (samples : List ℚ) : ℚ :=
  let acc := samples.foldl
    (fun (p : ℚ × Nat) t => if (-55 : ℚ) < t ∧ t < 125 then (p.1 + t, p.2 + 1) else p) (0, 0)
  if acc.2 = 0 then -127 else acc.1 / (acc.2 : ℚ)

/-- Value slot of one metrics entry, keeping the C types apart:
`co2` is an `int`, `pm25`/`temp` are `float` reads, `lat`/`lon` are doubles. -/
inductive MetricVal where
  | ofInt : Int → MetricVal
  | ofF : FloatVal → MetricVal
  | ofQ : ℚ → MetricVal
deriving DecidableEq

/-- The `metrics` array built by `publishJson` (sketch lines 230-249):
`double lat = -1, lon = -1; bool haveGPS = readGPS(lat, lon);` then the
five `createNestedObject` entries in source order, with
`haveGPS ? lat : -1` / `haveGPS ? lon : -1` for the last two. -/
def publishRecord (g : GpsState) (co2raw : Int) (pmReads : List PmResult)
    (pmRecovery : PmResult) (tempSamples : List ℚ) : List (String × MetricVal) :=
  let gpsRes := readGPS g (-1) (-1)
  let haveGPS := gpsRes.1
  let lat := gpsRes.2.1
  let lon := gpsRes.2.2
  let co2 := readCO2 co2raw
  let pm25 := (readPM25 pmReads pmRecovery).2
  let temp := readTemperatureC tempSamples
  [("CO2", MetricVal.ofInt co2),
   ("PM2.5", MetricVal.ofF pm25),
   ("Temperature", MetricVal.ofQ temp),
   ("Lat", MetricVal.ofQ (if haveGPS then lat else -1)),
   ("Lon", MetricVal.ofQ (if haveGPS then lon else -1))]

/-- Output buffer of `publishJson` (sketch line 251): `char buf[900]`. -/
def MQTT_BUF_SIZE : Nat := 900

/-- `size_t n = serializeJson(doc, buf)` with `char buf[900]` (line 251):
the ArduinoJson bounded-buffer overload writes at most 899 payload bytes
(one byte is kept for the terminator) and returns the bytes written, so an
over-long serialization is cut to the buffer. -/
def serializeJsonInto (cap : Nat) (serialized : List Char) : List Char :=
  serialized.take (cap - 1)

/-- The emit step of `publishJson` (lines 251-252): serialize into the
900-byte buffer, then `mqtt.publish(MQTT_TOPIC_UP, buf, n, false)`
unconditionally — there is no branch comparing `n` with the buffer bound.
First component: whether a publish is attempted (always); second: the
bytes handed to `mqtt.publish`. -/
def publishJsonEmit (serialized : List Char) : Bool × List Char :=
  (true, serializeJsonInto MQTT_BUF_SIZE serialized)

/-- A 1000-byte serialization, exceeding the 900-byte buffer. -/
def overflowMsg : List Char := List.replicate 1000 'a'

/-- `serializeJson` output of the will document built on sketch line 114:
`will["device"] = MQTT_CLIENT; will["status"] = "offline";`. -/
def offlineStatusJson : String :=
  "\x7b\"device\":\"esp8266-airclient\",\"status\":\"offline\"\x7d"

/-- `serializeJson` output of the birth document built on sketch line 129:
`birth["device"] = MQTT_CLIENT; birth["status"] = "online";`. -/
def onlineStatusJson : String :=
  "\x7b\"device\":\"esp8266-airclient\",\"status\":\"online\"\x7d"

/-- The will string `mqttConnect` hands to `mqtt.connect` (lines 115-116):
`serializeJson` leaves the JSON text followed by a terminator in
`willBuf`; the statement `willBuf[willLen] = ' '` then overwrites that
terminator with a space, so the C string passed on is the JSON text, the
space, and whatever bytes follow in the buffer up to the next zero byte
(modelled by `residual`). -/
def willBufString (residual : String) : String :=
  offlineStatusJson ++ " " ++ residual

/-- The empty residual: the luckiest case, in which the byte right after
the overwritten terminator happens to be zero. -/
def noResidual : String := ""

/-- Broker-visible events of `mqttConnect`. -/
inductive MqttEvent where
  | connectAttempt : String → Bool → String → MqttEvent
  | delayMs : Nat → MqttEvent
  | publishMsg : String → String → Bool → MqttEvent
deriving DecidableEq

/-- The `while (!mqtt.connected())` loop of `mqttConnect` (lines 118-136),
driven by the outcome of each `mqtt.connect` call: every attempt registers
the (retained, QoS0) will on `MQTT_TOPIC_STATUS`; on success the birth
payload is published retained on the same topic and the loop ends; on
failure the loop delays 5000 ms and retries. -/
def mqttConnectTrace (residual : String) : List Bool → List MqttEvent
  | [] => []
  | ok :: rest =>
    MqttEvent.connectAttempt MQTT_TOPIC_STATUS true (willBufString residual) ::
      (if ok then [MqttEvent.publishMsg MQTT_TOPIC_STATUS onlineStatusJson true]
       else MqttEvent.delayMs 5000 :: mqttConnectTrace residual rest)

/-- One tick of the publish scheduler (sketch lines 305-309):
`if (millis() - t0 > 10000UL) { publishJson(); t0 = millis(); }`.
Returns the new `t0` and whether `publishJson` ran on this tick. -/
def schedStep (t0 now : Nat) : Nat × Bool :=
  if 10000 < now - t0 then (now, true) else (t0, false)

/-- Runs the scheduler over a list of tick times starting from the static
initializer `t0 = 0`; returns the final `t0` and the tick times on which
`publishJson` ran. -/
def schedRun (ticks : List Nat) : Nat × List Nat :=
  ticks.foldl
    (fun (st : Nat × List Nat) now =>
      let s := schedStep st.1 now
      (s.1, if s.2 then st.2 ++ [now] else st.2))
    (0, [])

/-- The publish instants of a simulated run. -/
def publishTimes (ticks : List Nat) : List Nat := (schedRun ticks).2

/-- Ticks at 0, 1000, ..., 35000 ms: the spec's simulated 35000 ms run
with 1000 ms tick spacing. -/
def simTicks : List Nat := (List.range 36).map (fun k => k * 1000)

/-! ## Theorems -/

/-- C1, counterexample: on a tick with exactly 10000 ms elapsed since the
last publish (`t0 = 0`, `millis() = 10000`), the claimed trigger condition
"elapsed ≥ 10000 ms" holds, yet the scheduler does not run `publishJson`
(the sketch tests `millis() - t0 > 10000UL`, strictly). -/
theorem C1_counterexample :
    10000 ≤ 10000 - 0 ∧ (schedStep 0 10000).2 = false ∧ publishTimes [10000] = [] := by
  decide

/-- C1, amended: `publishJson` runs on a tick if and only if strictly more
than 10000 ms have elapsed since the last publish (or since start), and the
interval timer is reset to the tick time exactly when a publish happens;
over the simulated 35000 ms run with 1000 ms tick spacing, exactly 3
publish cycles occur (at 11000, 22000 and 33000 ms), consecutive publishes
always strictly more than 10000 ms apart. -/
theorem C1_sched_amended (t0 now : Nat) :
    ((schedStep t0 now).2 = true ↔ 10000 < now - t0) ∧
    (10000 < now - t0 → schedStep t0 now = (now, true)) ∧
    (¬ 10000 < now - t0 → schedStep t0 now = (t0, false)) ∧
    publishTimes simTicks = [11000, 22000, 33000] ∧
    List.Chain' (fun a b => 10000 < b - a) (publishTimes simTicks) := by
  have hpub : publishTimes simTicks = [11000, 22000, 33000] := by decide
  refine ⟨?_, ?_, ?_, hpub, ?_⟩
  · unfold schedStep
    by_cases h : 10000 < now - t0 <;> simp [h]
  · intro h; simp [schedStep, h]
  · intro h; simp [schedStep, h]
  · rw [hpub]
    simp [List.chain'_cons]

/-- C1, witness for the amended theorem: at `t0 = 0`, `now = 10001`, the
hypothesis `10000 < now - t0` holds and the scheduler publishes and resets
the timer. -/
theorem C1_sched_witness :
    10000 < 10001 - 0 ∧ schedStep 0 10001 = (10001, true) :=
  ⟨by decide, (C1_sched_amended 0 10001).2.1 (by decide)⟩

/-- C2, counterexample: for a 1000-byte serialization, which exceeds the
900-byte buffer, `publishJson` still attempts the publish (the claim says
the publish is skipped) and the transmitted bytes are a proper truncation
of the serialization (the claim says a truncated serialization is never
transmitted). -/
theorem C2_counterexample :
    MQTT_BUF_SIZE < overflowMsg.length ∧
    (publishJsonEmit overflowMsg).1 = true ∧
    (publishJsonEmit overflowMsg).2 ≠ overflowMsg := by
  refine ⟨by rw [overflowMsg, List.length_replicate]; decide, rfl, ?_⟩
  intro h
  have h2 := congrArg List.length h
  rw [publishJsonEmit, serializeJsonInto, List.length_take, overflowMsg,
    List.length_replicate, MQTT_BUF_SIZE] at h2
  omega

/-- C2, amended: `publishJson` performs no overflow check: the publish is
attempted on every cycle, `serializeJson` silently cuts the payload to the
899 content bytes the 900-byte buffer can hold, and the transmitted bytes
equal the full serialization exactly when it fits the buffer. -/
theorem C2_publish_amended (serialized : List Char) :
    (publishJsonEmit serialized).1 = true ∧
    ((publishJsonEmit serialized).2 = serialized ↔ serialized.length ≤ MQTT_BUF_SIZE - 1) ∧
    (publishJsonEmit serialized).2.length = min (MQTT_BUF_SIZE - 1) serialized.length := by
  refine ⟨rfl, ⟨?_, ?_⟩, ?_⟩
  · intro h
    have h2 := congrArg List.length h
    rw [publishJsonEmit, serializeJsonInto, List.length_take, MQTT_BUF_SIZE] at h2
    rw [MQTT_BUF_SIZE]
    omega
  · intro h
    exact List.take_of_length_le h
  · exact List.length_take _ _

/-- C3: evaluation of `mqttConnect` at the failing input. Because line 116
overwrites the terminator `serializeJson` wrote with a space, the will
string registered with the broker is never the offline JSON itself: even
with the luckiest residual buffer contents (a zero byte right after), it
is the offline JSON followed by a space. The rest of the claimed protocol
does hold and is evaluated here on an outcome sequence with one failure
then one success: every attempt registers the retained will on
`device/status`, the failure is followed by the 5000 ms backoff, and the
retained online birth payload is published exactly once, immediately after
the successful attempt and never before. -/
theorem C3_code_evaluation :
    willBufString noResidual ≠ offlineStatusJson ∧
    willBufString noResidual = offlineStatusJson ++ " " ∧
    mqttConnectTrace noResidual [false, true] =
      [MqttEvent.connectAttempt MQTT_TOPIC_STATUS true (willBufString noResidual),
       MqttEvent.delayMs 5000,
       MqttEvent.connectAttempt MQTT_TOPIC_STATUS true (willBufString noResidual),
       MqttEvent.publishMsg MQTT_TOPIC_STATUS onlineStatusJson true] := by
  refine ⟨by decide, by decide, rfl⟩

/-- C6: the CO2 channel returns the device value exactly on the open band
(0, 10000) and maps everything else (error codes, 0, readings at or above
10000) to the sentinel −1. -/
theorem C6_co2 (v : Int) :
    (0 < v ∧ v < 10000 → readCO2 v = v) ∧
    (¬ (0 < v ∧ v < 10000) → readCO2 v = -1) := by
  constructor <;> intro h <;> simp [readCO2, h]

/-- C6, witness: concrete device replies 412 (in band), 0, −3 and 10000
(all out of band). -/
theorem C6_co2_witness :
    ((0 : Int) < 412 ∧ (412 : Int) < 10000) ∧ readCO2 412 = 412 ∧
    (¬ ((0 : Int) < 0 ∧ (0 : Int) < 10000)) ∧ readCO2 0 = -1 ∧
    readCO2 (-3) = -1 ∧ readCO2 10000 = -1 :=
  ⟨by decide, (C6_co2 412).1 (by decide), by decide, (C6_co2 0).2 (by decide),
   (C6_co2 (-3)).2 (by decide), (C6_co2 10000).2 (by decide)⟩

/-- C7: the position channel reports a fix exactly when the decoder holds
a valid fix strictly younger than 3000 ms, in which case the decoder's
coordinates are returned; otherwise the caller-initialized sentinels
(−1, −1) are left in place. -/
theorem C7_gps (g : GpsState) :
    ((readGPS g (-1) (-1)).1 = true ↔ g.isValid = true ∧ g.age < 3000) ∧
    (g.isValid = true ∧ g.age < 3000 → readGPS g (-1) (-1) = (true, g.lat, g.lng)) ∧
    (¬ (g.isValid = true ∧ g.age < 3000) → readGPS g (-1) (-1) = (false, -1, -1)) := by
  refine ⟨?_, ?_, ?_⟩
  · unfold readGPS
    by_cases h : g.isValid = true ∧ g.age < 3000 <;> simp [h]
  · intro h; simp [readGPS, h]
  · intro h; simp [readGPS, h]

/-- C7, witness: a valid fix aged 2999 ms is accepted with its
coordinates; ages 3000 and 3001 and an invalid fix are rejected with the
(−1, −1) sentinels. -/
theorem C7_gps_witness :
    ((⟨true, 2999, 5, 6⟩ : GpsState).isValid = true ∧
      (⟨true, 2999, 5, 6⟩ : GpsState).age < 3000) ∧
    readGPS ⟨true, 2999, 5, 6⟩ (-1) (-1) = (true, 5, 6) ∧
    readGPS ⟨true, 3001, 5, 6⟩ (-1) (-1) = (false, -1, -1) ∧
    readGPS ⟨true, 3000, 5, 6⟩ (-1) (-1) = (false, -1, -1) ∧
    readGPS ⟨false, 0, 5, 6⟩ (-1) (-1) = (false, -1, -1) :=
  ⟨by decide,
   (C7_gps ⟨true, 2999, 5, 6⟩).2.1 (by decide),
   (C7_gps ⟨true, 3001, 5, 6⟩).2.2 (by decide),
   (C7_gps ⟨true, 3000, 5, 6⟩).2.2 (by decide),
   (C7_gps ⟨false, 0, 5, 6⟩).2.2 (by decide)⟩

/-- C8: whatever the sensor outcomes, the published record has exactly 5
metric entries with the fixed names in the fixed insertion order CO2,
PM2.5, Temperature, Lat, Lon. -/
theorem C8_record_shape (g : GpsState) (co2raw : Int) (pmReads : List PmResult)
    (pmRecovery : PmResult) (tempSamples : List ℚ) :
    (publishRecord g co2raw pmReads pmRecovery tempSamples).map Prod.fst =
      ["CO2", "PM2.5", "Temperature", "Lat", "Lon"] ∧
    (publishRecord g co2raw pmReads pmRecovery tempSamples).length = 5 :=
  ⟨rfl, rfl⟩

theorem pmLoop_of_finite (rs : List PmResult) (cur : FloatVal) (h : cur.isFinite = true) :
    pmLoop rs cur = ([], cur) := by
  cases rs with
  | nil => rfl
  | cons r rest => simp [pmLoop, h]

theorem pmLoop_trace_shape (rs : List PmResult) : ∀ cur : FloatVal,
    ∃ k, k ≤ rs.length ∧ (pmLoop rs cur).1 = attemptTrace k := by
  induction rs with
  | nil => intro cur; exact ⟨0, Nat.le_refl 0, rfl⟩
  | cons r rest ih =>
    intro cur
    by_cases h : cur.isFinite = true
    · exact ⟨0, Nat.zero_le _, by simp [pmLoop, h, attemptTrace]⟩
    · rw [Bool.not_eq_true] at h
      obtain ⟨k, hk, htr⟩ := ih (if r.ok then r.pm25 else cur)
      refine ⟨k + 1, by simpa using Nat.succ_le_succ hk, ?_⟩
      simp [pmLoop, h, attemptTrace, htr]

theorem pmLoop_value_found (rs : List PmResult) : ∀ (cur : FloatVal) (r : PmResult),
    cur.isFinite = false →
    rs.find? (fun x => x.ok && x.pm25.isFinite) = some r →
    (pmLoop rs cur).2 = r.pm25 ∧ r.pm25.isFinite = true := by
  induction rs with
  | nil => intro cur r hc hf; simp at hf
  | cons x rest ih =>
    intro cur r hc hf
    by_cases hp : (x.ok && x.pm25.isFinite) = true
    · simp only [List.find?_cons, hp] at hf
      injection hf with hf
      subst hf
      obtain ⟨hok, hfin⟩ := Bool.and_eq_true_iff.mp hp
      refine ⟨?_, hfin⟩
      simp [pmLoop, hc, hok, pmLoop_of_finite _ _ hfin]
    · rw [Bool.not_eq_true] at hp
      simp only [List.find?_cons, hp] at hf
      have hc2 : (if x.ok then x.pm25 else cur).isFinite = false := by
        cases hx : x.ok with
        | true => simpa [hx] using hp
        | false => simpa [hx] using hc
      have hrec := ih (if x.ok then x.pm25 else cur) r hc2 hf
      simpa [pmLoop, hc] using hrec

theorem pmLoop_value_none (rs : List PmResult) : ∀ cur : FloatVal,
    cur.isFinite = false →
    rs.find? (fun x => x.ok && x.pm25.isFinite) = none →
    (pmLoop rs cur).2.isFinite = false ∧ (pmLoop rs cur).1 = attemptTrace rs.length := by
  induction rs with
  | nil => intro cur hc _; exact ⟨hc, rfl⟩
  | cons x rest ih =>
    intro cur hc hf
    rw [List.find?_eq_none] at hf
    have hp : ¬ (x.ok && x.pm25.isFinite) = true := hf x (List.mem_cons_self _ _)
    have hc2 : (if x.ok then x.pm25 else cur).isFinite = false := by
      cases hx : x.ok with
      | true => simpa [hx] using hp
      | false => simpa [hx] using hc
    have hf2 : rest.find? (fun x => x.ok && x.pm25.isFinite) = none := by
      rw [List.find?_eq_none]
      intro y hy
      exact hf y (List.mem_cons_of_mem _ hy)
    have hrec := ih (if x.ok then x.pm25 else cur) hc2 hf2
    constructor
    · simpa [pmLoop, hc] using hrec.1
    · simpa [pmLoop, hc, attemptTrace] using hrec.2

theorem attemptTrace_no_wakeup (k : Nat) : PmAction.wakeup ∉ attemptTrace k := by
  induction k with
  | zero => simp [attemptTrace]
  | succ k ih => simp [attemptTrace, ih]

theorem attemptTrace_count (k : Nat) :
    (attemptTrace k).count PmAction.readAttempt = k := by
  induction k with
  | zero => rfl
  | succ k ih => simp [attemptTrace, List.count_cons, ih]

/-- C5: over any sequence of 4 device replies, the particulate channel
returns the first reply that is ok and numerically finite, without ever
entering the recovery sequence and with at most 4 read attempts; if no
such reply exists, the trace is exactly 4 read attempts with their 200 ms
delays, then one recovery sequence (wake, 800 ms stabilization,
active-reporting mode, continuous working period) and exactly one more
read, whose value is returned when it is ok and finite and whose failure
yields the sentinel −1. -/
theorem C5_pm25 (reads : List PmResult) (recovery : PmResult)
    (hlen : reads.length = 4) :
    (∀ r, reads.find? (fun x => x.ok && x.pm25.isFinite) = some r →
        (readPM25 reads recovery).2 = r.pm25 ∧
        PmAction.wakeup ∉ (readPM25 reads recovery).1 ∧
        (readPM25 reads recovery).1.count PmAction.readAttempt ≤ 4) ∧
    (reads.find? (fun x => x.ok && x.pm25.isFinite) = none →
        (readPM25 reads recovery).1 = attemptTrace 4 ++
          [PmAction.wakeup, PmAction.delayMs 800, PmAction.setActiveReporting,
           PmAction.setContinuousWorking, PmAction.readAttempt] ∧
        (readPM25 reads recovery).2 =
          (if recovery.ok && recovery.pm25.isFinite then recovery.pm25
           else FloatVal.fin (-1))) := by
  constructor
  · intro r hf
    have hval := pmLoop_value_found reads FloatVal.nan r rfl hf
    obtain ⟨k, hk, htr⟩ := pmLoop_trace_shape reads FloatVal.nan
    have hmain : (readPM25 reads recovery) = ((pmLoop reads FloatVal.nan).1,
        (pmLoop reads FloatVal.nan).2) := by
      rw [readPM25]
      simp [hval.1, hval.2]
    rw [hmain]
    refine ⟨hval.1, ?_, ?_⟩
    · rw [htr]; exact attemptTrace_no_wakeup k
    · rw [htr, attemptTrace_count]; omega
  · intro hf
    have hval := pmLoop_value_none reads FloatVal.nan rfl hf
    rw [hlen] at hval
    have hmain2 : (pmLoop reads FloatVal.nan).2.isFinite = false := hval.1
    constructor
    · rw [readPM25]
      simp only [hmain2, Bool.false_eq_true, if_false]
      rw [hval.2]
    · rw [readPM25]
      simp only [hmain2, Bool.false_eq_true, if_false]
      cases hok : recovery.ok with
      | false => simp [hok, hmain2]
      | true =>
        cases hfin : recovery.pm25.isFinite with
        | false => simp [hok, hfin]
        | true => simp [hok, hfin]

/-- C5, witness: four failed reads followed by a successful recovery read
of 8.3 yield the full retry-plus-recovery trace and return the recovered
value. -/
theorem C5_pm25_witness :
    ([⟨false, FloatVal.nan⟩, ⟨false, FloatVal.nan⟩, ⟨false, FloatVal.nan⟩,
      ⟨false, FloatVal.nan⟩] : List PmResult).length = 4 ∧
    ([⟨false, FloatVal.nan⟩, ⟨false, FloatVal.nan⟩, ⟨false, FloatVal.nan⟩,
      ⟨false, FloatVal.nan⟩] : List PmResult).find?
        (fun x => x.ok && x.pm25.isFinite) = none ∧
    ((readPM25 [⟨false, FloatVal.nan⟩, ⟨false, FloatVal.nan⟩, ⟨false, FloatVal.nan⟩,
        ⟨false, FloatVal.nan⟩] ⟨true, FloatVal.fin (83/10)⟩).1 = attemptTrace 4 ++
          [PmAction.wakeup, PmAction.delayMs 800, PmAction.setActiveReporting,
           PmAction.setContinuousWorking, PmAction.readAttempt] ∧
      (readPM25 [⟨false, FloatVal.nan⟩, ⟨false, FloatVal.nan⟩, ⟨false, FloatVal.nan⟩,
        ⟨false, FloatVal.nan⟩] ⟨true, FloatVal.fin (83/10)⟩).2 =
        (if (true : Bool) && (FloatVal.fin (83/10)).isFinite then FloatVal.fin (83/10)
         else FloatVal.fin (-1))) :=
  ⟨rfl, rfl,
   (C5_pm25 [⟨false, FloatVal.nan⟩, ⟨false, FloatVal.nan⟩, ⟨false, FloatVal.nan⟩,
      ⟨false, FloatVal.nan⟩] ⟨true, FloatVal.fin (83/10)⟩ rfl).2 rfl⟩

/-- C9: for every sequence of device replies, including all-failing and
NaN/infinite ones, the value the particulate channel returns is finite:
`readPM25` ends in `isfinite(pm25) ? pm25 : -1.0f`, so a non-finite value
can never escape. -/
theorem C9_pm25_finite (reads : List PmResult) (recovery : PmResult) :
    ((readPM25 reads recovery).2).isFinite = true := by
  rw [readPM25]
  cases hmain : (pmLoop reads FloatVal.nan).2.isFinite with
  | true => simp [hmain]
  | false =>
    simp only [hmain, Bool.false_eq_true, if_false]
    cases hv : (if recovery.ok then recovery.pm25 else (pmLoop reads FloatVal.nan).2).isFinite with
    | true => simp [hv]
    | false => simp [hv, FloatVal.isFinite]

theorem tempFold_eq (samples : List ℚ) : ∀ (a : ℚ) (n : Nat),
    samples.foldl
      (fun (p : ℚ × Nat) t => if (-55 : ℚ) < t ∧ t < 125 then (p.1 + t, p.2 + 1) else p)
      (a, n) =
    (a + (samples.filter fun t => decide ((-55 : ℚ) < t ∧ t < 125)).sum,
     n + (samples.filter fun t => decide ((-55 : ℚ) < t ∧ t < 125)).length) := by
  induction samples with
  | nil => intro a n; simp
  | cons t rest ih =>
    intro a n
    by_cases hc : (-55 : ℚ) < t ∧ t < 125
    · rw [List.foldl_cons, if_pos hc, ih, List.filter_cons,
        if_pos (decide_eq_true hc), List.sum_cons, List.length_cons]
      rw [Prod.mk.injEq]
      exact ⟨by ring, by omega⟩
    · rw [List.foldl_cons, if_neg hc, ih, List.filter_cons,
        if_neg (by simp [decide_eq_false hc])]

/-- C4: over any 3 temperature samples, the channel discards every sample
outside the open band (−55, 125) °C and returns the mean of the survivors,
or the sentinel −127 when none survive; the disconnect code −127 itself
can never be among the averaged samples. -/
theorem C4_temperature (samples : List ℚ) (_hlen : samples.length = 3) :
    ((samples.filter fun t => decide ((-55 : ℚ) < t ∧ t < 125)).length = 0 →
        readTemperatureC samples = -127) ∧
    ((samples.filter fun t => decide ((-55 : ℚ) < t ∧ t < 125)).length ≠ 0 →
        readTemperatureC samples =
          (samples.filter fun t => decide ((-55 : ℚ) < t ∧ t < 125)).sum /
            ((samples.filter fun t => decide ((-55 : ℚ) < t ∧ t < 125)).length : ℚ)) ∧
    (-127 : ℚ) ∉ samples.filter fun t => decide ((-55 : ℚ) < t ∧ t < 125) := by
  refine ⟨?_, ?_, ?_⟩
  · intro h0
    simp only [readTemperatureC, tempFold_eq, zero_add]
    rw [if_pos h0]
  · intro hne
    simp only [readTemperatureC, tempFold_eq, zero_add]
    rw [if_neg hne]
  · intro hmem
    rw [List.mem_filter] at hmem
    have hband := of_decide_eq_true hmem.2
    have : ¬ ((-55 : ℚ) < -127) := by norm_num
    exact this hband.1

/-- C4, witness: for the samples [23.5, −127, 24.1] (i.e. [47/2, −127,
241/10]), the disconnect code −127 is discarded and the channel returns
the mean 23.8 = 119/5 of the two surviving samples. -/
theorem C4_temperature_witness :
    ([(47/2 : ℚ), -127, 241/10] : List ℚ).length = 3 ∧
    (([(47/2 : ℚ), -127, 241/10] : List ℚ).filter
        (fun t => decide ((-55 : ℚ) < t ∧ t < 125))).length ≠ 0 ∧
    readTemperatureC [(47/2 : ℚ), -127, 241/10] =
      (([(47/2 : ℚ), -127, 241/10] : List ℚ).filter
          (fun t => decide ((-55 : ℚ) < t ∧ t < 125))).sum /
        ((([(47/2 : ℚ), -127, 241/10] : List ℚ).filter
            (fun t => decide ((-55 : ℚ) < t ∧ t < 125))).length : ℚ) ∧
    readTemperatureC [(47/2 : ℚ), -127, 241/10] = 119/5 :=
  ⟨rfl, by norm_num [List.filter],
   (C4_temperature [(47/2 : ℚ), -127, 241/10] rfl).2.1 (by norm_num [List.filter]),
   by norm_num [readTemperatureC, List.foldl]⟩

/-- C10: in every published record the Lat and Lon entries are paired:
without a fresh fix both are the sentinel −1, and with a fresh fix both
carry that fix's coordinates; one sentinel coordinate is never mixed with
one real coordinate. -/
theorem C10_latlon (g : GpsState) (co2raw : Int) (pmReads : List PmResult)
    (pmRecovery : PmResult) (tempSamples : List ℚ) :
    (g.isValid = true ∧ g.age < 3000 →
        (publishRecord g co2raw pmReads pmRecovery tempSamples)[3]? =
          some ("Lat", MetricVal.ofQ g.lat) ∧
        (publishRecord g co2raw pmReads pmRecovery tempSamples)[4]? =
          some ("Lon", MetricVal.ofQ g.lng)) ∧
    (¬ (g.isValid = true ∧ g.age < 3000) →
        (publishRecord g co2raw pmReads pmRecovery tempSamples)[3]? =
          some ("Lat", MetricVal.ofQ (-1)) ∧
        (publishRecord g co2raw pmReads pmRecovery tempSamples)[4]? =
          some ("Lon", MetricVal.ofQ (-1))) := by
  constructor <;> intro h <;> simp [publishRecord, readGPS, h]

/-- C10, witness: a fresh fix (age 2999) puts its coordinates in both Lat
and Lon; a stale fix (age 3001) puts the sentinel −1 in both. -/
theorem C10_latlon_witness :
    ((⟨true, 2999, 5, 6⟩ : GpsState).isValid = true ∧
        (⟨true, 2999, 5, 6⟩ : GpsState).age < 3000) ∧
    ((publishRecord ⟨true, 2999, 5, 6⟩ 400 [] ⟨false, FloatVal.nan⟩ [])[3]? =
        some ("Lat", MetricVal.ofQ 5) ∧
      (publishRecord ⟨true, 2999, 5, 6⟩ 400 [] ⟨false, FloatVal.nan⟩ [])[4]? =
        some ("Lon", MetricVal.ofQ 6)) ∧
    ((publishRecord ⟨true, 3001, 5, 6⟩ 400 [] ⟨false, FloatVal.nan⟩ [])[3]? =
        some ("Lat", MetricVal.ofQ (-1)) ∧
      (publishRecord ⟨true, 3001, 5, 6⟩ 400 [] ⟨false, FloatVal.nan⟩ [])[4]? =
        some ("Lon", MetricVal.ofQ (-1))) :=
  ⟨by decide,
   (C10_latlon ⟨true, 2999, 5, 6⟩ 400 [] ⟨false, FloatVal.nan⟩ []).1 (by decide),
   (C10_latlon ⟨true, 3001, 5, 6⟩ 400 [] ⟨false, FloatVal.nan⟩ []).2 (by decide)⟩
